import Mathlib

/-!
Verification of the credential and entitlement lifecycle engine of the
shared-modules repository.

The TypeScript services are shallowly embedded as pure Lean functions over an
explicit database value.  Timestamps are modelled as milliseconds since the
epoch (`Int`, mirroring JavaScript `Date.getTime()`).  Each SQL statement of
the source becomes one pure update of the database value; `queryOne` becomes
`List.find?`.  Randomly generated artefacts (token secrets, row ids) are
passed in as explicit arguments, and the SHA-256 digest function and the JWT
signer are abstracted as function parameters, since the claims are
independent of their concrete values.
-/

namespace SharedModules



/-- One hour in milliseconds (`60 * 60 * 1000` in the source). -/
def hourMs : Int := 3600000

/-- JavaScript `String.prototype.toLowerCase()`, embedded by structural
recursion over the character list so that concrete instances evaluate in the
kernel (`String.toLower` in core recurses on byte positions through
well-founded recursion and does not reduce). -/
def lowercase (s : String) : String := ⟨s.data.map Char.toLower⟩

/-- One day in milliseconds (`24 * 60 * 60 * 1000`). -/
def dayMs : Int := 86400000

/-- Error codes of `AuthErrorCode` in `src/types/index.ts`. -/
inductive AuthErrorCode where
  | EMAIL_NOT_VERIFIED
  | INVALID_CREDENTIALS
  | EMAIL_ALREADY_REGISTERED
  | INVALID_TOKEN
  | TOKEN_EXPIRED
  | EMAIL_ALREADY_VERIFIED
  | RATE_LIMIT_EXCEEDED
  | USER_NOT_FOUND
  | TOKEN_REUSE_DETECTED
  deriving DecidableEq, Repr

/-- A row of the `users` table (`User` in `src/types/index.ts`); the columns
the embedded operations read or write. -/
structure User where
  id : Nat
  email : String
  password_hash : String
  email_verified : Bool
  email_verification_token : Option String
  email_verification_expires : Option Int
  password_reset_token : Option String
  password_reset_expires : Option Int
  deriving DecidableEq, Repr

/-- A row of the `refresh_tokens` table (`RefreshToken` in the types file). -/
structure RefreshToken where
  id : Nat
  user_id : Nat
  token_hash : String
  expires_at : Int
  revoked : Bool
  deriving DecidableEq, Repr

/-- A row of the `email_verification_attempts` table
(`EmailVerificationAttempt` in the types file). -/
structure EmailVerificationAttempt where
  id : Nat
  email : String
  attempt_count : Nat
  first_attempt_at : Int
  last_attempt_at : Int
  deriving DecidableEq, Repr

/-- The `status` column of `user_subscriptions` (`SubscriptionStatus`). -/
inductive SubscriptionStatus where
  | active
  | cancelled
  | expired
  | trial
  deriving DecidableEq, Repr

/-- A row of the `subscription_plans` table (`SubscriptionPlan`); `none` in a
monthly-limit column is SQL NULL. -/
structure SubscriptionPlan where
  id : Nat
  name : String
  max_domains : Nat
  max_team_members : Nat
  check_interval_hours : Nat
  api_requests_per_month : Option Nat
  sms_alerts_per_month : Option Nat
  email_alerts : Bool
  slack_alerts : Bool
  deriving DecidableEq, Repr

/-- A row of the `user_subscriptions` table (`UserSubscription`); the columns
the embedded operations read or write. -/
structure UserSubscription where
  id : Nat
  user_id : Nat
  plan_id : Nat
  status : SubscriptionStatus
  is_trial : Bool
  trial_ends_at : Option Int
  deriving DecidableEq, Repr

/-- A row of the `usage_tracking` table (`UsageTracking`). -/
structure UsageTracking where
  user_id : Nat
  month_year : String
  api_requests : Nat
  sms_alerts_sent : Nat
  deriving DecidableEq, Repr

/-- The persistent store: one field per table the embedded operations touch. -/
structure Db where
  users : List User
  refresh_tokens : List RefreshToken
  email_verification_attempts : List EmailVerificationAttempt
  subscription_plans : List SubscriptionPlan
  user_subscriptions : List UserSubscription
  usage_tracking : List UsageTracking
  deriving DecidableEq, Repr

/-- An outbound email handed to the notification collaborator: the template
kind (verification or reset) and the recipient address. -/
structure EmailEvent where
  kind : String
  email : String
  deriving DecidableEq, Repr

/-- An entry handed to the audit-log collaborator: level and action. -/
structure LogEntry where
  level : String
  action : String
  deriving DecidableEq, Repr

/-- Result shape shared by the auth operations (`success`, `message`,
optional `errorCode`). -/
structure ActionResult where
  success : Bool
  message : String
  errorCode : Option AuthErrorCode
  deriving DecidableEq, Repr

/-- The pair returned by `generateAuthTokens`. -/
structure AuthTokens where
  accessToken : String
  refreshToken : String
  deriving DecidableEq, Repr

/-- Result of `refreshTokens` and `login`: outcome plus optional tokens. -/
structure TokenResult where
  success : Bool
  message : String
  errorCode : Option AuthErrorCode
  tokens : Option AuthTokens
  deriving DecidableEq, Repr

/-- Result of the private `checkRateLimit` helper. -/
structure RateLimitResult where
  allowed : Bool
  errorCode : Option AuthErrorCode
  deriving DecidableEq, Repr

/-! ## Rate limiter (`AuthService.checkRateLimit`) -/

/-- `SELECT ... FROM email_verification_attempts WHERE email = $1`. -/
def findAttempt (db : Db) (email : String) : Option EmailVerificationAttempt :=
  db.email_verification_attempts.find? (fun a => a.email == email)

/-- The `UPDATE` that resets an attempt record to a fresh window
(`attempt_count = 1, first_attempt_at = now, last_attempt_at = now`). -/
def resetAttempt (db : Db) (aid : Nat) (now : Int) : Db :=
  { db with email_verification_attempts :=
      db.email_verification_attempts.map (fun a =>
        if a.id == aid then
          { a with attempt_count := 1, first_attempt_at := now, last_attempt_at := now }
        else a) }

/-- The `UPDATE` that increments `attempt_count` and touches
`last_attempt_at`. -/
def bumpAttempt (db : Db) (aid : Nat) (now : Int) : Db :=
  { db with email_verification_attempts :=
      db.email_verification_attempts.map (fun a =>
        if a.id == aid then
          { a with attempt_count := a.attempt_count + 1, last_attempt_at := now }
        else a) }

/-- `AuthService.checkRateLimit` (auth.service.ts lines 62-108): fixed window
of one hour, cap of 3 attempts, keyed by the lower-cased email.  `newId` is
the row id the store would give a freshly inserted record. -/
def checkRateLimit (db : Db) (now : Int) (email : String) (newId : Nat) :
    RateLimitResult × Db :=
  let oneHourAgo : Int := now - hourMs
  let normalizedEmail := lowercase email
  match findAttempt db normalizedEmail with
  | none =>
      (⟨true, none⟩,
        { db with email_verification_attempts :=
            db.email_verification_attempts ++
              [⟨newId, normalizedEmail, 1, now, now⟩] })
  | some attempt =>
      if attempt.first_attempt_at < oneHourAgo then
        (⟨true, none⟩, resetAttempt db attempt.id now)
      else if 3 ≤ attempt.attempt_count then
        (⟨false, some .RATE_LIMIT_EXCEEDED⟩, db)
      else
        (⟨true, none⟩, bumpAttempt db attempt.id now)

/-- Claim C4: the rate limiter allows exactly 3 actions per fixed 1-hour
window for a key: with no record it creates one with counter 1 and allows;
with an active window and counter below 3 it increments and allows; a check
at or above the cap in an active window is denied without mutating the
store; and a check arriving more than one hour after the first attempt of
the window resets the record to counter 1 with a new window start and is
allowed. -/
theorem checkRateLimit_fixed_window_cap_three
    (db : Db) (now : Int) (email : String) (newId : Nat) :
    ((findAttempt db (lowercase email) = none →
        (checkRateLimit db now email newId).1.allowed = true ∧
        (checkRateLimit db now email newId).2.email_verification_attempts =
          db.email_verification_attempts ++ [⟨newId, lowercase email, 1, now, now⟩]) ∧
     (∀ a, findAttempt db (lowercase email) = some a →
        ((hourMs < now - a.first_attempt_at →
            (checkRateLimit db now email newId).1.allowed = true ∧
            (checkRateLimit db now email newId).2 = resetAttempt db a.id now) ∧
         (¬ hourMs < now - a.first_attempt_at →
            ((a.attempt_count < 3 →
                (checkRateLimit db now email newId).1.allowed = true ∧
                (checkRateLimit db now email newId).2 = bumpAttempt db a.id now) ∧
             (3 ≤ a.attempt_count →
                (checkRateLimit db now email newId).1.allowed = false ∧
                (checkRateLimit db now email newId).1.errorCode =
                  some AuthErrorCode.RATE_LIMIT_EXCEEDED ∧
                (checkRateLimit db now email newId).2 = db)))))) := by
  constructor
  · intro h
    simp [checkRateLimit, h]
  · intro a ha
    have hwin : a.first_attempt_at < now - hourMs ↔ hourMs < now - a.first_attempt_at := by
      simp only [hourMs]
      omega
    constructor
    · intro h
      simp only [checkRateLimit, ha]
      rw [if_pos (hwin.mpr h)]
      exact ⟨rfl, rfl⟩
    · intro h
      have h' : ¬ a.first_attempt_at < now - hourMs := fun hc => h (hwin.mp hc)
      constructor
      · intro hcnt
        simp only [checkRateLimit, ha]
        rw [if_neg h', if_neg (by omega)]
        exact ⟨rfl, rfl⟩
      · intro hcnt
        simp only [checkRateLimit, ha]
        rw [if_neg h', if_pos hcnt]
        exact ⟨rfl, rfl, rfl⟩

/-- Witness for C4: a concrete store in which a key has 3 attempts in an
active window; the next check is denied and the store is unchanged. -/
theorem checkRateLimit_fixed_window_cap_three_witness :
    (checkRateLimit
        ⟨[], [], [⟨1, "a@b.c", 3, 0, 0⟩], [], [], []⟩ 1000 "a@b.c" 7).1.allowed = false ∧
    (checkRateLimit
        ⟨[], [], [⟨1, "a@b.c", 3, 0, 0⟩], [], [], []⟩ 1000 "a@b.c" 7).2 =
      ⟨[], [], [⟨1, "a@b.c", 3, 0, 0⟩], [], [], []⟩ := by
  have h := (checkRateLimit_fixed_window_cap_three
      ⟨[], [], [⟨1, "a@b.c", 3, 0, 0⟩], [], [], []⟩ 1000 "a@b.c" 7).2
      ⟨1, "a@b.c", 3, 0, 0⟩ (by decide)
  have h2 := ((h.2 (by decide)).2 (by decide))
  exact ⟨h2.1, h2.2.2⟩

/-! ## Credential token manager (`AuthService.refreshTokens`)

The random secret generator and SHA-256 digest (`generateToken`/`hashToken`)
and the JWT signer are abstracted as function parameters `hashToken` and
`signJwt`; fresh secrets and fresh row ids are explicit arguments. -/

/-- `SELECT ... FROM refresh_tokens WHERE token_hash = $1`. -/
def findRefreshToken (db : Db) (h : String) : Option RefreshToken :=
  db.refresh_tokens.find? (fun t => t.token_hash == h)

/-- `SELECT ... FROM users WHERE id = $1`. -/
def findUserById (db : Db) (uid : Nat) : Option User :=
  db.users.find? (fun u => u.id == uid)

/-- `UPDATE refresh_tokens SET revoked = true WHERE user_id = $1`. -/
def revokeAllForUser (db : Db) (uid : Nat) : Db :=
  { db with refresh_tokens := db.refresh_tokens.map (fun t =>
      if t.user_id == uid then { t with revoked := true } else t) }

/-- `UPDATE refresh_tokens SET revoked = true WHERE id = $1`. -/
def revokeTokenById (db : Db) (tid : Nat) : Db :=
  { db with refresh_tokens := db.refresh_tokens.map (fun t =>
      if t.id == tid then { t with revoked := true } else t) }

/-- `AuthService.generateAuthTokens`: sign an access token and `INSERT` one
new refresh-token record holding the digest of the fresh secret, expiring
`refreshExpMs` from now, with `revoked` defaulting to false. -/
def generateAuthTokens (signJwt : Nat → String → String)
    (hashToken : String → String) (db : Db) (now refreshExpMs : Int)
    (newId : Nat) (newSecret : String) (userId : Nat) (email : String) :
    AuthTokens × Db :=
  (⟨signJwt userId email, newSecret⟩,
    { db with refresh_tokens := db.refresh_tokens ++
        [⟨newId, userId, hashToken newSecret, now + refreshExpMs, false⟩] })

/-- The initial `SELECT` phase of `AuthService.refreshTokens`: look the
record up by the digest of the presented secret. -/
def rotateLookup (hashToken : String → String) (db : Db)
    (refreshToken : String) : Option RefreshToken :=
  findRefreshToken db (hashToken refreshToken)

/-- The remainder of `AuthService.refreshTokens` after its initial `SELECT`
(auth.service.ts lines 406-448), acting on the record that `SELECT`
returned: revoked-check (reuse cascade) first, then expiry check, then the
unconditional revoke-by-id of the presented record followed by issuance of a
fresh pair. -/
def rotateRest (signJwt : Nat → String → String)
    (hashToken : String → String) (db : Db) (now refreshExpMs : Int)
    (newId : Nat) (newSecret : String) (found : Option RefreshToken) :
    TokenResult × Db :=
  match found with
  | none => (⟨false, "Invalid refresh token", some .INVALID_TOKEN, none⟩, db)
  | some storedToken =>
    if storedToken.revoked then
      (⟨false, "Token reuse detected. All sessions have been revoked.",
          some .TOKEN_REUSE_DETECTED, none⟩,
        revokeAllForUser db storedToken.user_id)
    else if storedToken.expires_at < now then
      (⟨false, "Refresh token has expired", some .TOKEN_EXPIRED, none⟩, db)
    else
      let db1 := revokeTokenById db storedToken.id
      match findUserById db1 storedToken.user_id with
      | none => (⟨false, "User not found", some .USER_NOT_FOUND, none⟩, db1)
      | some user =>
        let issued := generateAuthTokens signJwt hashToken db1 now
          refreshExpMs newId newSecret user.id user.email
        (⟨true, "Tokens refreshed", none, some issued.1⟩, issued.2)

/-- `AuthService.refreshTokens` (auth.service.ts lines 396-449): the lookup
phase followed by the rest, as one sequential call. -/
def refreshTokens (signJwt : Nat → String → String)
    (hashToken : String → String) (db : Db) (now refreshExpMs : Int)
    (newId : Nat) (newSecret : String) (refreshToken : String) :
    TokenResult × Db :=
  rotateRest signJwt hashToken db now refreshExpMs newId newSecret
    (rotateLookup hashToken db refreshToken)

/-- Every record of the given user is revoked after `revokeAllForUser`. -/
theorem revoked_of_mem_revokeAllForUser {db : Db} {uid : Nat}
    {t : RefreshToken}
    (ht : t ∈ (revokeAllForUser db uid).refresh_tokens)
    (hu : t.user_id = uid) : t.revoked = true := by
  simp only [revokeAllForUser, List.mem_map] at ht
  obtain ⟨s, hs, rfl⟩ := ht
  by_cases h : s.user_id = uid
  · simp [h]
  · simp only [beq_iff_eq, if_neg h] at hu ⊢
    exact absurd hu h

/-- Claim C1: presenting a refresh secret whose stored record is revoked
makes `refreshTokens` fail with `TOKEN_REUSE_DETECTED` regardless of the
expiry of the record (the revoked check precedes the expiry check), revokes
every refresh-token record of that identity, and afterwards any other
refresh secret whose record belongs to the same identity also fails to
rotate with `TOKEN_REUSE_DETECTED`. -/
theorem refresh_reuse_detection_revokes_family
    (signJwt : Nat → String → String) (hashToken : String → String)
    (db : Db) (now refreshExpMs : Int) (newId : Nat) (newSecret : String)
    (secret : String) (r : RefreshToken)
    (hfind : findRefreshToken db (hashToken secret) = some r)
    (hrev : r.revoked = true) :
    (refreshTokens signJwt hashToken db now refreshExpMs newId newSecret
        secret).1.errorCode = some AuthErrorCode.TOKEN_REUSE_DETECTED ∧
    (refreshTokens signJwt hashToken db now refreshExpMs newId newSecret
        secret).1.success = false ∧
    (∀ t ∈ (refreshTokens signJwt hashToken db now refreshExpMs newId
        newSecret secret).2.refresh_tokens,
        t.user_id = r.user_id → t.revoked = true) ∧
    (∀ secret2 now2 newId2 newSecret2 r2,
        findRefreshToken
            (refreshTokens signJwt hashToken db now refreshExpMs newId
              newSecret secret).2 (hashToken secret2) = some r2 →
        r2.user_id = r.user_id →
        (refreshTokens signJwt hashToken
            (refreshTokens signJwt hashToken db now refreshExpMs newId
              newSecret secret).2 now2 refreshExpMs newId2 newSecret2
            secret2).1.errorCode = some AuthErrorCode.TOKEN_REUSE_DETECTED) := by
  have hmain : refreshTokens signJwt hashToken db now refreshExpMs newId
      newSecret secret =
      (⟨false, "Token reuse detected. All sessions have been revoked.",
          some .TOKEN_REUSE_DETECTED, none⟩,
        revokeAllForUser db r.user_id) := by
    simp [refreshTokens, rotateLookup, rotateRest, hfind, hrev]
  refine ⟨by rw [hmain], by rw [hmain], ?_, ?_⟩
  · intro t ht hu
    rw [hmain] at ht
    exact revoked_of_mem_revokeAllForUser ht hu
  · intro secret2 now2 newId2 newSecret2 r2 hfind2 huid2
    rw [hmain] at hfind2
    have hmem : r2 ∈ (revokeAllForUser db r.user_id).refresh_tokens :=
      List.mem_of_find?_eq_some hfind2
    have hrev2 : r2.revoked = true :=
      revoked_of_mem_revokeAllForUser hmem huid2
    rw [hmain]
    simp [refreshTokens, rotateLookup, rotateRest, hfind2, hrev2]

/-- Witness for C1: a concrete store holding a revoked record and a second,
still-active record of the same identity; presenting the revoked secret
reports reuse and the active sibling is revoked as well. -/
theorem refresh_reuse_detection_revokes_family_witness :
    (refreshTokens (fun _ _ => "jwt") (fun s => s)
        ⟨[⟨5, "u@x.io", "pw", true, none, none, none, none⟩],
          [⟨1, 5, "sec", 99, true⟩, ⟨2, 5, "other", 99, false⟩],
          [], [], [], []⟩ 0 1000 7 "ns" "sec").1.errorCode =
      some AuthErrorCode.TOKEN_REUSE_DETECTED ∧
    (refreshTokens (fun _ _ => "jwt") (fun s => s)
        (refreshTokens (fun _ _ => "jwt") (fun s => s)
          ⟨[⟨5, "u@x.io", "pw", true, none, none, none, none⟩],
            [⟨1, 5, "sec", 99, true⟩, ⟨2, 5, "other", 99, false⟩],
            [], [], [], []⟩ 0 1000 7 "ns" "sec").2
        0 1000 8 "ns2" "other").1.errorCode =
      some AuthErrorCode.TOKEN_REUSE_DETECTED := by
  have h := refresh_reuse_detection_revokes_family (fun _ _ => "jwt")
    (fun s => s)
    ⟨[⟨5, "u@x.io", "pw", true, none, none, none, none⟩],
      [⟨1, 5, "sec", 99, true⟩, ⟨2, 5, "other", 99, false⟩],
      [], [], [], []⟩ 0 1000 7 "ns" "sec" ⟨1, 5, "sec", 99, true⟩
    (by decide) (by decide)
  exact ⟨h.1, h.2.2.2 "other" 0 8 "ns2" ⟨2, 5, "other", 99, true⟩
    (by decide) (by decide)⟩

/-- Claim C2 (exhibiting the code bug): the rotate-and-revoke step of
`refreshTokens` is not an atomic conditional write.  The call consists of a
`SELECT` (`rotateLookup`) followed by an unconditional
`UPDATE ... SET revoked = true WHERE id = ...` and an `INSERT`
(`rotateRest`); nothing re-checks `revoked` or inspects the affected row
count.  Under the legal schedule in which two concurrent calls presenting
the same valid secret both run their `SELECT` before either runs its
writes, both calls succeed and produce two new valid token pairs; the
second call does not observe the record as revoked and does not report
reuse. -/
theorem concurrent_rotation_race_both_succeed :
    (let db0 : Db := ⟨[⟨1, "u@x.io", "pw", true, none, none, none, none⟩],
        [⟨1, 1, "tok", 1000, false⟩], [], [], [], []⟩
     let j := fun (_ : Nat) (_ : String) => "jwt"
     let h := fun (s : String) => s
     let fA := rotateLookup h db0 "tok"
     let fB := rotateLookup h db0 "tok"
     let stepA := rotateRest j h db0 0 5000 2 "n1" fA
     let stepB := rotateRest j h stepA.2 0 5000 3 "n2" fB
     stepA.1.success = true ∧ stepB.1.success = true ∧
       stepB.1.errorCode ≠ some AuthErrorCode.TOKEN_REUSE_DETECTED ∧
       (stepB.2.refresh_tokens.filter (fun t => !t.revoked)).length = 2) := by
  decide

/-- Claim C3: `refreshTokens` fails with `INVALID_TOKEN` exactly when no
record matches the digest of the presented secret, fails with
`TOKEN_EXPIRED` exactly when the matched record is not revoked but its
expiry is in the past, and otherwise (found, not revoked, not expired),
under the foreign-key well-formedness of the store (every refresh-token row
references an existing user, `REFERENCES users(id)` in the migration),
succeeds: the presented record is marked revoked and exactly one new record
holding the digest of the fresh secret for the same identity is appended,
and a fresh access-token/refresh-secret pair is returned. -/
theorem refresh_rotation_outcomes
    (signJwt : Nat → String → String) (hashToken : String → String)
    (db : Db) (now refreshExpMs : Int) (newId : Nat)
    (newSecret secret : String)
    (hwf : ∀ t ∈ db.refresh_tokens, ∃ u ∈ db.users, u.id = t.user_id) :
    ((refreshTokens signJwt hashToken db now refreshExpMs newId newSecret
        secret).1.errorCode = some AuthErrorCode.INVALID_TOKEN ↔
      findRefreshToken db (hashToken secret) = none) ∧
    ((refreshTokens signJwt hashToken db now refreshExpMs newId newSecret
        secret).1.errorCode = some AuthErrorCode.TOKEN_EXPIRED ↔
      ∃ r, findRefreshToken db (hashToken secret) = some r ∧
        r.revoked = false ∧ r.expires_at < now) ∧
    (∀ r, findRefreshToken db (hashToken secret) = some r →
      r.revoked = false → ¬ r.expires_at < now →
      (refreshTokens signJwt hashToken db now refreshExpMs newId newSecret
          secret).1.success = true ∧
      (∃ a, (refreshTokens signJwt hashToken db now refreshExpMs newId
          newSecret secret).1.tokens = some ⟨a, newSecret⟩) ∧
      (refreshTokens signJwt hashToken db now refreshExpMs newId newSecret
          secret).2.refresh_tokens =
        (revokeTokenById db r.id).refresh_tokens ++
          [⟨newId, r.user_id, hashToken newSecret, now + refreshExpMs,
            false⟩]) := by
  cases hf : findRefreshToken db (hashToken secret) with
  | none =>
      refine ⟨?_, ?_, ?_⟩
      · simp [refreshTokens, rotateLookup, rotateRest, hf]
      · simp [refreshTokens, rotateLookup, rotateRest, hf]
      · intro r hr
        exact Option.noConfusion hr
  | some r =>
      by_cases hrev : r.revoked
      · refine ⟨?_, ?_, ?_⟩
        · simp [refreshTokens, rotateLookup, rotateRest, hf, hrev]
        · simp [refreshTokens, rotateLookup, rotateRest, hf, hrev]
        · intro r' hr' hrev' _
          injection hr' with h
          subst h
          rw [hrev] at hrev'
          cases hrev'
      · by_cases hexp : r.expires_at < now
        · refine ⟨?_, ?_, ?_⟩
          · simp [refreshTokens, rotateLookup, rotateRest, hf, hrev, hexp]
          · constructor
            · intro _
              exact ⟨r, rfl, by simpa using hrev, hexp⟩
            · intro _
              simp [refreshTokens, rotateLookup, rotateRest, hf, hrev, hexp]
          · intro r' hr' _ hexp'
            injection hr' with h
            subst h
            exact absurd hexp hexp'
        · have hmem : r ∈ db.refresh_tokens := by
            have : db.refresh_tokens.find? (fun t => t.token_hash ==
                hashToken secret) = some r := hf
            exact List.mem_of_find?_eq_some this
          obtain ⟨u, hu, huid⟩ := hwf r hmem
          cases hfu : findUserById (revokeTokenById db r.id) r.user_id with
          | none =>
              exfalso
              have husers : (revokeTokenById db r.id).users = db.users := rfl
              rw [findUserById, husers, List.find?_eq_none] at hfu
              exact hfu u hu (by simp [huid])
          | some u' =>
              have hu'id : u'.id = r.user_id := by
                have h2 := List.find?_some hfu
                simpa using h2
              refine ⟨?_, ?_, ?_⟩
              · simp [refreshTokens, rotateLookup, rotateRest, hf, hrev,
                  hexp, hfu, generateAuthTokens]
              · simp [refreshTokens, rotateLookup, rotateRest, hf, hrev,
                  hexp, hfu, generateAuthTokens]
              · intro r' hr' _ _
                injection hr' with h
                subst h
                refine ⟨?_, ?_, ?_⟩
                · simp [refreshTokens, rotateLookup, rotateRest, hf, hrev,
                    hexp, hfu, generateAuthTokens]
                · exact ⟨signJwt u'.id u'.email,
                    by simp [refreshTokens, rotateLookup, rotateRest, hf,
                      hrev, hexp, hfu, generateAuthTokens]⟩
                · rw [← hu'id]
                  simp [refreshTokens, rotateLookup, rotateRest, hf, hrev,
                    hexp, hfu, generateAuthTokens]

/-- Witness for C3: in a concrete store whose only record is active and
unexpired, rotation succeeds. -/
theorem refresh_rotation_outcomes_witness :
    (refreshTokens (fun _ _ => "jwt") (fun s => s)
        ⟨[⟨1, "e@x.io", "pw", true, none, none, none, none⟩],
          [⟨1, 1, "tok", 1000, false⟩], [], [], [], []⟩
        0 5000 2 "n1" "tok").1.success = true := by
  exact ((refresh_rotation_outcomes (fun _ _ => "jwt") (fun s => s)
      ⟨[⟨1, "e@x.io", "pw", true, none, none, none, none⟩],
        [⟨1, 1, "tok", 1000, false⟩], [], [], [], []⟩
      0 5000 2 "n1" "tok" (by decide)).2.2 ⟨1, 1, "tok", 1000, false⟩
      (by decide) (by decide) (by decide)).1

/-! ## Subscription and trial state machine (`SubscriptionService`) -/

/-- `TRIAL_MAX_DOMAINS` in subscription.service.ts. -/
def TRIAL_MAX_DOMAINS : Nat := 10

/-- `TRIAL_MAX_SMS` in subscription.service.ts. -/
def TRIAL_MAX_SMS : Nat := 10

/-- `TRIAL_DURATION_DAYS` in subscription.service.ts, as a number of
milliseconds it contributes to `trial_ends_at` (the calendar-day addition
`setDate(getDate() + 14)` is modelled as adding exactly 14 days). -/
def trialDurationDays : Int := 14

/-- The hardcoded starter fallback of `getPlanLimits` (the source gives it
the string id `default`; row ids are Nat here, 0 stands for it). -/
def defaultStarterPlan : SubscriptionPlan :=
  ⟨0, "starter", 10, 1, 12, none, some 0, true, false⟩

/-- `SELECT * FROM subscription_plans WHERE name = $1` with the argument
lower-cased by the caller. -/
def getPlanByName (db : Db) (name : String) : Option SubscriptionPlan :=
  db.subscription_plans.find? (fun p => p.name == lowercase name)

/-- `SELECT * FROM subscription_plans WHERE id = $1`. -/
def getPlanById (db : Db) (pid : Nat) : Option SubscriptionPlan :=
  db.subscription_plans.find? (fun p => p.id == pid)

/-- `SubscriptionService.getUserSubscription`: the `user_subscriptions` row
with the given user id and status active or trial, joined with its plan;
the SQL `JOIN` yields no row when the plan id resolves to no plan. -/
def getUserSubscription (db : Db) (uid : Nat) :
    Option (UserSubscription × SubscriptionPlan) :=
  match db.user_subscriptions.find? (fun s => s.user_id == uid &&
      (s.status == SubscriptionStatus.active ||
        s.status == SubscriptionStatus.trial)) with
  | none => none
  | some s =>
      match getPlanById db s.plan_id with
      | none => none
      | some p => some (s, p)

/-- `SubscriptionService.getPlanLimits`: the plan of the current
subscription, else the seeded starter plan, else the hardcoded default. -/
def getPlanLimits (db : Db) (uid : Nat) : SubscriptionPlan :=
  match getUserSubscription db uid with
  | some sp => sp.2
  | none =>
      match getPlanByName db "starter" with
      | some p => p
      | none => defaultStarterPlan

/-- One dimension of `UsageLimits` with a non-nullable limit. -/
structure LimitEntry where
  used : Nat
  limit : Nat
  unlimited : Bool
  deriving DecidableEq, Repr

/-- One dimension of `UsageLimits` with a nullable limit. -/
structure OptLimitEntry where
  used : Nat
  limit : Option Nat
  unlimited : Bool
  deriving DecidableEq, Repr

/-- The `features` record of `UsageLimits`. -/
structure FeatureFlags where
  emailAlerts : Bool
  smsAlerts : Bool
  slackAlerts : Bool
  deriving DecidableEq, Repr

/-- `UsageLimits` in `src/types/index.ts`. -/
structure UsageLimits where
  plan : String
  domains : LimitEntry
  teamMembers : LimitEntry
  apiRequests : OptLimitEntry
  smsAlerts : OptLimitEntry
  features : FeatureFlags
  checkIntervalHours : Nat
  deriving DecidableEq, Repr

/-- `SELECT * FROM usage_tracking WHERE user_id = $1 AND month_year = $2`. -/
def findUsage (db : Db) (uid : Nat) (month : String) : Option UsageTracking :=
  db.usage_tracking.find? (fun u => u.user_id == uid && u.month_year == month)

/-- `SubscriptionService.getUsageLimits` (subscription.service.ts lines
245-290).  It reads the plan through `getPlanLimits`; the current month
string is passed in for `getCurrentMonthYear()`. -/
def getUsageLimits (db : Db) (uid : Nat) (domainCount teamMemberCount : Nat)
    (month : String) : UsageLimits :=
  let plan := getPlanLimits db uid
  let usage := findUsage db uid month
  let apiRequests := (usage.map (fun u => u.api_requests)).getD 0
  let smsAlerts := (usage.map (fun u => u.sms_alerts_sent)).getD 0
  let isEnterprise := lowercase plan.name == "enterprise"
  { plan := plan.name,
    domains := ⟨domainCount,
      if isEnterprise then 999999 else plan.max_domains, isEnterprise⟩,
    teamMembers := ⟨teamMemberCount,
      if isEnterprise then 999999 else plan.max_team_members, isEnterprise⟩,
    apiRequests := ⟨apiRequests, plan.api_requests_per_month,
      plan.api_requests_per_month == none || isEnterprise⟩,
    smsAlerts := ⟨smsAlerts, plan.sms_alerts_per_month,
      plan.sms_alerts_per_month == none || isEnterprise⟩,
    features := ⟨plan.email_alerts,
      (match plan.sms_alerts_per_month with
        | none => false
        | some n => decide (0 < n)) || isEnterprise,
      plan.slack_alerts || isEnterprise⟩,
    checkIntervalHours := plan.check_interval_hours }

/-- `TrialInfo` in `src/types/index.ts`. -/
structure TrialInfo where
  isOnTrial : Bool
  trialEndsAt : Option Int
  daysRemaining : Nat
  isExpired : Bool
  deriving DecidableEq, Repr

/-- `SubscriptionService.getTrialInfo` (lines 433-458): pure read;
`isExpired` is `now > trial_ends_at`, `daysRemaining` is
`Math.ceil((trial_ends_at - now) / dayMs)` and 0 once expired. -/
def getTrialInfo (db : Db) (now : Int) (uid : Nat) : TrialInfo :=
  match getUserSubscription db uid with
  | none => ⟨false, none, 0, false⟩
  | some sp =>
      if sp.1.is_trial = false then ⟨false, none, 0, false⟩
      else
        match sp.1.trial_ends_at with
        | none => ⟨false, none, 0, false⟩
        | some e =>
            let isExpired := decide (e < now)
            let daysRemaining : Nat :=
              if isExpired then 0
              else ((e - now).toNat + dayMs.toNat - 1) / dayMs.toNat
            ⟨true, some e, daysRemaining, isExpired⟩

/-- `SubscriptionService.assignDefaultPlan` (lines 110-142): upsert keyed
on the `UNIQUE(user_id)` constraint; the update path touches only
`plan_id` and `status`, the insert path takes the column defaults for the
trial fields. -/
def assignDefaultPlan (db : Db) (uid newSubId : Nat) : Db :=
  match getPlanByName db "starter" with
  | none => db
  | some p =>
      match db.user_subscriptions.find? (fun s => s.user_id == uid) with
      | some s =>
          { db with user_subscriptions := db.user_subscriptions.map (fun t =>
              if t.id == s.id then
                { t with plan_id := p.id, status := .active }
              else t) }
      | none =>
          { db with user_subscriptions := db.user_subscriptions ++
              [⟨newSubId, uid, p.id, .active, false, none⟩] }

/-- `SubscriptionService.assignTrialPlan` (lines 390-428): upsert to the
professional plan with status trial and `trial_ends_at = now + 14 days`,
falling back to `assignDefaultPlan` when the professional plan is absent. -/
def assignTrialPlan (db : Db) (now : Int) (uid newSubId : Nat) : Db :=
  match getPlanByName db "professional" with
  | none => assignDefaultPlan db uid newSubId
  | some p =>
      let trialEndsAt := now + trialDurationDays * dayMs
      match db.user_subscriptions.find? (fun s => s.user_id == uid) with
      | some s =>
          { db with user_subscriptions := db.user_subscriptions.map (fun t =>
              if t.id == s.id then
                { t with
                    plan_id := p.id,
                    status := .trial,
                    is_trial := true,
                    trial_ends_at := some trialEndsAt }
              else t) }
      | none =>
          { db with user_subscriptions := db.user_subscriptions ++
              [⟨newSubId, uid, p.id, .trial, true, some trialEndsAt⟩] }

/-- `SubscriptionService.checkAndHandleTrialExpiration` (lines 464-497):
on an expired trial, rewrite the row to the starter plan, status active,
trial fields cleared; otherwise no store change. -/
def checkAndHandleTrialExpiration (db : Db) (now : Int) (uid : Nat) :
    Bool × Db :=
  let trialInfo := getTrialInfo db now uid
  if !trialInfo.isOnTrial || !trialInfo.isExpired then (false, db)
  else
    match getPlanByName db "starter" with
    | none => (false, db)
    | some p =>
        (true, { db with user_subscriptions :=
            db.user_subscriptions.map (fun s =>
              if s.user_id == uid then
                { s with
                    plan_id := p.id,
                    status := .active,
                    is_trial := false,
                    trial_ends_at := none }
              else s) })

/-- The plan-with-flag shape `SubscriptionPlan & isTrialLimited` returned
by `getPlanLimitsWithTrialOverrides`. -/
structure TrialLimitedPlan extends SubscriptionPlan where
  isTrialLimited : Bool
  deriving DecidableEq, Repr

/-- `SubscriptionService.getPlanLimitsWithTrialOverrides` (lines 503-537):
first handle any expired trial, then, while an active trial is on, override
`max_domains` and `sms_alerts_per_month` with the fixed trial values (all
other plan fields, in particular the boolean feature flags, stay the
underlying plan values). -/
def getPlanLimitsWithTrialOverrides (db : Db) (now : Int) (uid : Nat) :
    TrialLimitedPlan × Db :=
  let db1 := (checkAndHandleTrialExpiration db now uid).2
  let sub := getUserSubscription db1 uid
  let trialInfo := getTrialInfo db1 now uid
  let plan := match sub with
    | some sp => sp.2
    | none =>
        match getPlanByName db1 "starter" with
        | some p => p
        | none => defaultStarterPlan
  if trialInfo.isOnTrial && !trialInfo.isExpired then
    (⟨{ plan with
          max_domains := TRIAL_MAX_DOMAINS,
          sms_alerts_per_month := some TRIAL_MAX_SMS }, true⟩, db1)
  else
    (⟨plan, false⟩, db1)

/-- `SubscriptionService.canSendSms` (lines 322-344): enterprise always
may; a null or zero SMS limit means not entitled; otherwise compare this
month of usage against the limit. -/
def canSendSms (db : Db) (now : Int) (uid : Nat) (month : String) :
    Bool × Db :=
  let r := getPlanLimitsWithTrialOverrides db now uid
  if lowercase r.1.name == "enterprise" then (true, r.2)
  else
    match r.1.sms_alerts_per_month with
    | none => (false, r.2)
    | some l =>
        if l == 0 then (false, r.2)
        else
          let sentCount := ((findUsage r.2 uid month).map
            (fun u => u.sms_alerts_sent)).getD 0
          (decide (sentCount < l), r.2)

/-- `SubscriptionService.canMakeApiRequest` (lines 349-365): a null API
limit or the enterprise tier short-circuits to true; otherwise compare this
month of usage against the limit (known non-null in that branch, hence the
`getD`). -/
def canMakeApiRequest (db : Db) (now : Int) (uid : Nat) (month : String) :
    Bool × Db :=
  let r := getPlanLimitsWithTrialOverrides db now uid
  if r.1.api_requests_per_month == none ||
      lowercase r.1.name == "enterprise" then (true, r.2)
  else
    let requestCount := ((findUsage r.2 uid month).map
      (fun u => u.api_requests)).getD 0
    (decide (requestCount < r.1.api_requests_per_month.getD 0), r.2)

/-- Counterexample to claim C5: a store with the seeded starter and
professional plans and an identity on an active (non-expired) professional
trial.  `getUsageLimits` reads the plan through `getPlanLimits` without any
expiration check or trial override, so it reports the professional limits
(40 domains, 100 SMS), not the 10/10 trial overrides the claim states. -/
theorem getUsageLimits_ignores_trial_override_cex :
    (getTrialInfo
        ⟨[], [], [],
          [⟨1, "starter", 10, 1, 12, none, some 0, true, false⟩,
            ⟨2, "professional", 40, 5, 1, some 5000, some 100, true, true⟩],
          [⟨1, 7, 2, SubscriptionStatus.trial, true, some 1209600000⟩],
          []⟩ 604800000 7).isOnTrial = true ∧
    (getTrialInfo
        ⟨[], [], [],
          [⟨1, "starter", 10, 1, 12, none, some 0, true, false⟩,
            ⟨2, "professional", 40, 5, 1, some 5000, some 100, true, true⟩],
          [⟨1, 7, 2, SubscriptionStatus.trial, true, some 1209600000⟩],
          []⟩ 604800000 7).isExpired = false ∧
    (getUsageLimits
        ⟨[], [], [],
          [⟨1, "starter", 10, 1, 12, none, some 0, true, false⟩,
            ⟨2, "professional", 40, 5, 1, some 5000, some 100, true, true⟩],
          [⟨1, 7, 2, SubscriptionStatus.trial, true, some 1209600000⟩],
          []⟩ 7 0 0 "2025-10").domains.limit = 40 ∧
    (getUsageLimits
        ⟨[], [], [],
          [⟨1, "starter", 10, 1, 12, none, some 0, true, false⟩,
            ⟨2, "professional", 40, 5, 1, some 5000, some 100, true, true⟩],
          [⟨1, 7, 2, SubscriptionStatus.trial, true, some 1209600000⟩],
          []⟩ 7 0 0 "2025-10").smsAlerts.limit = some 100 := by
  decide

/-- Claim C5 as amended: `getUsageLimits` composes the raw plan through
`getPlanLimits`, with no expiration check and no trial override, so during
an active trial it reports the underlying plan limits unchanged; the fixed
trial overrides (10 domains, 10 SMS) and the expiration check live in
`getPlanLimitsWithTrialOverrides`, used by the entitlement checks, which
keeps all other plan fields, in particular the boolean feature flags, at
the underlying plan values. -/
theorem getUsageLimits_raw_plan_and_override_in_can_checks
    (db : Db) (now : Int) (uid d t : Nat) (month : String)
    (s : UserSubscription) (p : SubscriptionPlan)
    (hsub : getUserSubscription db uid = some (s, p))
    (htr : s.is_trial = true)
    (hends : ∃ e, s.trial_ends_at = some e ∧ ¬ e < now)
    (hne : (lowercase p.name == "enterprise") = false) :
    ((getUsageLimits db uid d t month).domains.limit = p.max_domains ∧
     (getUsageLimits db uid d t month).smsAlerts.limit =
        p.sms_alerts_per_month ∧
     (getUsageLimits db uid d t month).features.emailAlerts =
        p.email_alerts ∧
     (getUsageLimits db uid d t month).features.slackAlerts =
        p.slack_alerts) ∧
    ((getPlanLimitsWithTrialOverrides db now uid).1.max_domains =
        TRIAL_MAX_DOMAINS ∧
     (getPlanLimitsWithTrialOverrides db now uid).1.sms_alerts_per_month =
        some TRIAL_MAX_SMS ∧
     (getPlanLimitsWithTrialOverrides db now uid).1.slack_alerts =
        p.slack_alerts ∧
     (getPlanLimitsWithTrialOverrides db now uid).1.email_alerts =
        p.email_alerts ∧
     (getPlanLimitsWithTrialOverrides db now uid).1.isTrialLimited = true ∧
     (getPlanLimitsWithTrialOverrides db now uid).2 = db) := by
  obtain ⟨e, he, hact⟩ := hends
  have hdec : decide (e < now) = false := decide_eq_false hact
  have hti : getTrialInfo db now uid =
      ⟨true, some e, ((e - now).toNat + dayMs.toNat - 1) / dayMs.toNat,
        false⟩ := by
    simp [getTrialInfo, hsub, htr, he, hdec]
  have hchk : checkAndHandleTrialExpiration db now uid = (false, db) := by
    simp [checkAndHandleTrialExpiration, hti]
  have hover : getPlanLimitsWithTrialOverrides db now uid =
      (⟨{ p with
            max_domains := TRIAL_MAX_DOMAINS,
            sms_alerts_per_month := some TRIAL_MAX_SMS }, true⟩, db) := by
    simp [getPlanLimitsWithTrialOverrides, hchk, hsub, hti]
  have hpl : getPlanLimits db uid = p := by
    simp [getPlanLimits, hsub]
  constructor
  · refine ⟨?_, ?_, ?_, ?_⟩ <;> simp [getUsageLimits, hpl, hne]
  · rw [hover]
    exact ⟨rfl, rfl, rfl, rfl, rfl, rfl⟩

/-- Witness for the amended C5: on the concrete active-trial store the
limits query reports the professional limit while the override-aware plan
reports the trial cap. -/
theorem getUsageLimits_raw_plan_and_override_in_can_checks_witness :
    (getUsageLimits
        ⟨[], [], [],
          [⟨1, "starter", 10, 1, 12, none, some 0, true, false⟩,
            ⟨2, "professional", 40, 5, 1, some 5000, some 100, true, true⟩],
          [⟨1, 7, 2, SubscriptionStatus.trial, true, some 1209600000⟩],
          []⟩ 7 0 0 "2025-10").domains.limit = 40 ∧
    (getPlanLimitsWithTrialOverrides
        ⟨[], [], [],
          [⟨1, "starter", 10, 1, 12, none, some 0, true, false⟩,
            ⟨2, "professional", 40, 5, 1, some 5000, some 100, true, true⟩],
          [⟨1, 7, 2, SubscriptionStatus.trial, true, some 1209600000⟩],
          []⟩ 604800000 7).1.max_domains = 10 := by
  have h := getUsageLimits_raw_plan_and_override_in_can_checks
    ⟨[], [], [],
      [⟨1, "starter", 10, 1, 12, none, some 0, true, false⟩,
        ⟨2, "professional", 40, 5, 1, some 5000, some 100, true, true⟩],
      [⟨1, 7, 2, SubscriptionStatus.trial, true, some 1209600000⟩],
      []⟩ 604800000 7 0 0 "2025-10"
    ⟨1, 7, 2, SubscriptionStatus.trial, true, some 1209600000⟩
    ⟨2, "professional", 40, 5, 1, some 5000, some 100, true, true⟩
    (by decide) (by decide) ⟨1209600000, rfl, by decide⟩ (by decide)
  exact ⟨h.1.1, h.2.1⟩

/-- Counterexample to claim C6: the seeded starter plan has a null API
limit and a zero SMS limit and is not the enterprise tier; `canSendSms`
treats those as not entitled (false), but `canMakeApiRequest` treats its
null limit as unlimited and returns true, where the claim states both
return false on a null or zero limit. -/
theorem canMakeApiRequest_null_limit_cex :
    ((getPlanLimitsWithTrialOverrides
        ⟨[], [], [], [⟨1, "starter", 10, 1, 12, none, some 0, true, false⟩],
          [⟨1, 3, 1, SubscriptionStatus.active, false, none⟩], []⟩
        0 3).1.api_requests_per_month = none) ∧
    ((lowercase (getPlanLimitsWithTrialOverrides
        ⟨[], [], [], [⟨1, "starter", 10, 1, 12, none, some 0, true, false⟩],
          [⟨1, 3, 1, SubscriptionStatus.active, false, none⟩], []⟩
        0 3).1.name == "enterprise") = false) ∧
    ((canMakeApiRequest
        ⟨[], [], [], [⟨1, "starter", 10, 1, 12, none, some 0, true, false⟩],
          [⟨1, 3, 1, SubscriptionStatus.active, false, none⟩], []⟩
        0 3 "2025-10").1 = true) := by
  decide

/-- Claim C6 as amended: for a non-enterprise effective plan, `canSendSms`
returns false when the SMS monthly limit is null or zero and otherwise
compares this month of usage strictly against the limit; `canMakeApiRequest`
however returns true when the API monthly limit is null (null means
unlimited there) and otherwise compares usage strictly against the limit
(a zero limit therefore always denies). -/
theorem can_send_sms_vs_api_null_zero
    (db : Db) (now : Int) (uid : Nat) (month : String)
    (hne : (lowercase (getPlanLimitsWithTrialOverrides db now uid).1.name ==
        "enterprise") = false) :
    ((getPlanLimitsWithTrialOverrides db now uid).1.sms_alerts_per_month =
        none → (canSendSms db now uid month).1 = false) ∧
    ((getPlanLimitsWithTrialOverrides db now uid).1.sms_alerts_per_month =
        some 0 → (canSendSms db now uid month).1 = false) ∧
    (∀ l, (getPlanLimitsWithTrialOverrides db now uid).1.sms_alerts_per_month
        = some l → 0 < l →
      ((canSendSms db now uid month).1 = true ↔
        ((findUsage (getPlanLimitsWithTrialOverrides db now uid).2 uid
          month).map (fun u => u.sms_alerts_sent)).getD 0 < l)) ∧
    ((getPlanLimitsWithTrialOverrides db now uid).1.api_requests_per_month =
        none → (canMakeApiRequest db now uid month).1 = true) ∧
    (∀ l, (getPlanLimitsWithTrialOverrides db now uid).1.api_requests_per_month
        = some l →
      ((canMakeApiRequest db now uid month).1 = true ↔
        ((findUsage (getPlanLimitsWithTrialOverrides db now uid).2 uid
          month).map (fun u => u.api_requests)).getD 0 < l)) := by
  refine ⟨?_, ?_, ?_, ?_, ?_⟩
  · intro hs
    simp [canSendSms, hne, hs]
  · intro hs
    simp [canSendSms, hne, hs]
  · intro l hs hl
    have hl0 : (l == 0) = false := by
      simpa using Nat.pos_iff_ne_zero.mp hl
    simp [canSendSms, hne, hs, hl0]
  · intro ha
    simp [canMakeApiRequest, hne, ha]
  · intro l ha
    have hnn : ((getPlanLimitsWithTrialOverrides db now
        uid).1.api_requests_per_month == none) = false := by
      simp [ha]
    simp [canMakeApiRequest, hne, ha, hnn]

/-- Witness for the amended C6: on a concrete starter-plan store the SMS
check denies (zero limit) while the API check allows (null limit). -/
theorem can_send_sms_vs_api_null_zero_witness :
    (canSendSms
        ⟨[], [], [], [⟨1, "starter", 10, 1, 12, none, some 0, true, false⟩],
          [⟨1, 3, 1, SubscriptionStatus.active, false, none⟩], []⟩
        0 3 "2025-10").1 = false ∧
    (canMakeApiRequest
        ⟨[], [], [], [⟨1, "starter", 10, 1, 12, none, some 0, true, false⟩],
          [⟨1, 3, 1, SubscriptionStatus.active, false, none⟩], []⟩
        0 3 "2025-10").1 = true := by
  have h := can_send_sms_vs_api_null_zero
    ⟨[], [], [], [⟨1, "starter", 10, 1, 12, none, some 0, true, false⟩],
      [⟨1, 3, 1, SubscriptionStatus.active, false, none⟩], []⟩
    0 3 "2025-10" (by decide)
  exact ⟨h.2.1 (by decide), h.2.2.2.1 (by decide)⟩

/-- Claim C7: for a fresh identity, `assignTrialPlan` at time T stores a
trial end strictly between T plus 13 days and T plus 15 days; on the
resulting subscription `getTrialInfo` reports `isExpired` exactly when now
exceeds the stored end, reports `daysRemaining` 7 (inside the interval from
0 exclusive to 14 inclusive) at T plus 7 days and 0 once expired (true at T
plus 15 days), and while not expired `daysRemaining` is the ceiling of the
remaining time in whole days: the least number of days covering the
remaining time. -/
theorem trial_assignment_and_info
    (db : Db) (T : Int) (uid newSubId : Nat) (p : SubscriptionPlan)
    (hp : getPlanByName db "professional" = some p)
    (hpid : getPlanById db p.id = some p)
    (hnone : db.user_subscriptions.find? (fun s => s.user_id == uid) = none) :
    (∀ s ∈ (assignTrialPlan db T uid newSubId).user_subscriptions,
        s.user_id = uid →
        ∃ e, s.trial_ends_at = some e ∧
          T + 13 * dayMs < e ∧ e < T + 15 * dayMs) ∧
    ((getTrialInfo (assignTrialPlan db T uid newSubId) (T + 7 * dayMs)
        uid).isOnTrial = true ∧
      (getTrialInfo (assignTrialPlan db T uid newSubId) (T + 7 * dayMs)
        uid).isExpired = false ∧
      (getTrialInfo (assignTrialPlan db T uid newSubId) (T + 7 * dayMs)
        uid).daysRemaining = 7) ∧
    ((getTrialInfo (assignTrialPlan db T uid newSubId) (T + 15 * dayMs)
        uid).isExpired = true ∧
      (getTrialInfo (assignTrialPlan db T uid newSubId) (T + 15 * dayMs)
        uid).daysRemaining = 0) ∧
    (∀ now2 : Int,
      (getTrialInfo (assignTrialPlan db T uid newSubId) now2 uid).isExpired
        = decide (T + 14 * dayMs < now2)) ∧
    (∀ now2 : Int, ¬ T + 14 * dayMs < now2 →
      T + 14 * dayMs - now2 ≤
        ((getTrialInfo (assignTrialPlan db T uid newSubId) now2
          uid).daysRemaining : Int) * dayMs ∧
      ∀ m : Nat, T + 14 * dayMs - now2 ≤ (m : Int) * dayMs →
        (getTrialInfo (assignTrialPlan db T uid newSubId) now2
          uid).daysRemaining ≤ m) := by
  have hE : trialDurationDays * dayMs = 14 * dayMs := by
    simp only [trialDurationDays]
  have happ : assignTrialPlan db T uid newSubId =
      { db with user_subscriptions := db.user_subscriptions ++
          [⟨newSubId, uid, p.id, SubscriptionStatus.trial, true,
            some (T + 14 * dayMs)⟩] } := by
    simp [assignTrialPlan, hp, hnone, hE]
  have hold : db.user_subscriptions.find? (fun s => s.user_id == uid &&
      (s.status == SubscriptionStatus.active ||
        s.status == SubscriptionStatus.trial)) = none := by
    rw [List.find?_eq_none]
    intro s hs
    have h1 := List.find?_eq_none.mp hnone s hs
    simp only [beq_iff_eq] at h1
    simp [h1]
  have hfind : (assignTrialPlan db T uid newSubId).user_subscriptions.find?
      (fun s => s.user_id == uid &&
        (s.status == SubscriptionStatus.active ||
          s.status == SubscriptionStatus.trial)) =
      some ⟨newSubId, uid, p.id, SubscriptionStatus.trial, true,
        some (T + 14 * dayMs)⟩ := by
    rw [happ]
    show (db.user_subscriptions ++ [_]).find? _ = _
    rw [List.find?_append, hold]
    simp
  have hsub : getUserSubscription (assignTrialPlan db T uid newSubId) uid =
      some (⟨newSubId, uid, p.id, SubscriptionStatus.trial, true,
        some (T + 14 * dayMs)⟩, p) := by
    have hpid2 : getPlanById (assignTrialPlan db T uid newSubId) p.id =
        some p := by
      rw [happ]
      exact hpid
    simp [getUserSubscription, hfind, hpid2]
  refine ⟨?_, ⟨?_, ?_, ?_⟩, ⟨?_, ?_⟩, ?_, ?_⟩
  · rw [happ]
    intro s hs hsu
    rcases List.mem_append.mp hs with h | h
    · exfalso
      have h1 := List.find?_eq_none.mp hnone s h
      simp [hsu] at h1
    · simp only [List.mem_singleton] at h
      subst h
      refine ⟨T + 14 * dayMs, rfl, ?_, ?_⟩ <;>
        (simp only [dayMs]; omega)
  · simp [getTrialInfo, hsub]
  · have hlt : ¬ (T + 14 * dayMs < T + 7 * dayMs) := by
      simp only [dayMs]
      omega
    simp [getTrialInfo, hsub, hlt]
  · have hlt : ¬ (T + 14 * dayMs < T + 7 * dayMs) := by
      simp only [dayMs]
      omega
    simp [getTrialInfo, hsub, hlt, dayMs]
  · have hgt : T + 14 * dayMs < T + 15 * dayMs := by
      simp only [dayMs]
      omega
    simp [getTrialInfo, hsub, hgt]
  · have hgt : T + 14 * dayMs < T + 15 * dayMs := by
      simp only [dayMs]
      omega
    simp [getTrialInfo, hsub, hgt]
  · intro now2
    simp [getTrialInfo, hsub]
  · intro now2 hn
    have hdec : decide (T + 14 * dayMs < now2) = false := decide_eq_false hn
    constructor
    · simp [getTrialInfo, hsub, hn, dayMs]
      omega
    · intro m hm
      have hn2 : ¬ T + 1209600000 < now2 := by
        simp only [dayMs] at hn
        omega
      simp [getTrialInfo, hsub, hn2, dayMs]
      simp only [dayMs] at hm
      omega

/-- Witness for C7: assigning the trial on a concrete store with the
professional plan and reading the trial info 7 days later. -/
theorem trial_assignment_and_info_witness :
    (getTrialInfo (assignTrialPlan
        ⟨[], [], [],
          [⟨2, "professional", 40, 5, 1, some 5000, some 100, true, true⟩],
          [], []⟩ 0 1 9) (0 + 7 * dayMs) 1).daysRemaining = 7 := by
  exact (trial_assignment_and_info
    ⟨[], [], [],
      [⟨2, "professional", 40, 5, 1, some 5000, some 100, true, true⟩],
      [], []⟩ 0 1 9
    ⟨2, "professional", 40, 5, 1, some 5000, some 100, true, true⟩
    (by decide) (by decide) (by decide)).2.1.2.2

/-! ## Verification, reset and login flows (`AuthService`) -/

/-- `SELECT ... FROM users WHERE email = $1` with the lower-cased email. -/
def findUserByEmail (db : Db) (email : String) : Option User :=
  db.users.find? (fun u => u.email == email)

/-- `SELECT ... FROM users WHERE email_verification_token = $1`. -/
def findUserByVerificationToken (db : Db) (h : String) : Option User :=
  db.users.find? (fun u => u.email_verification_token == some h)

/-- `UPDATE users SET email_verified = true, email_verification_token =
NULL, email_verification_expires = NULL WHERE id = $1`. -/
def markEmailVerified (db : Db) (uid : Nat) : Db :=
  { db with users := db.users.map (fun u =>
      if u.id == uid then
        { u with
            email_verified := true,
            email_verification_token := none,
            email_verification_expires := none }
      else u) }

/-- `UPDATE users SET email_verification_token = $1,
email_verification_expires = $2 WHERE id = $3`. -/
def setVerificationToken (db : Db) (uid : Nat) (tokHash : String)
    (expires : Int) : Db :=
  { db with users := db.users.map (fun u =>
      if u.id == uid then
        { u with
            email_verification_token := some tokHash,
            email_verification_expires := some expires }
      else u) }

/-- `UPDATE users SET password_reset_token = $1, password_reset_expires =
$2 WHERE id = $3`. -/
def setResetToken (db : Db) (uid : Nat) (tokHash : String)
    (expires : Int) : Db :=
  { db with users := db.users.map (fun u =>
      if u.id == uid then
        { u with
            password_reset_token := some tokHash,
            password_reset_expires := some expires }
      else u) }

/-- `AuthService.verifyEmail` (auth.service.ts lines 172-259).  The trial
assignment runs inside try/catch; the Boolean `trialAssignmentFails` is an
environment input modelling that collaborator call throwing, in which case
only an error entry is handed to the logger.  The audit entries of the call
are returned alongside the result and the new store. -/
def verifyEmail (hashToken : String → String) (db : Db) (now : Int)
    (token : String) (trialAssignmentFails : Bool) (newSubId : Nat) :
    ActionResult × Db × List LogEntry :=
  let tokenHash := hashToken token
  match findUserByVerificationToken db tokenHash with
  | none =>
      (⟨false, "Invalid verification token", some .INVALID_TOKEN⟩, db,
        [⟨"error", "verify_email"⟩])
  | some user =>
      if user.email_verified then
        (⟨false, "Email already verified", some .EMAIL_ALREADY_VERIFIED⟩,
          db, [⟨"warn", "verify_email"⟩])
      else if (match user.email_verification_expires with
          | some e => decide (e < now)
          | none => false) then
        (⟨false, "Verification token has expired", some .TOKEN_EXPIRED⟩,
          db, [⟨"error", "verify_email"⟩])
      else
        let db1 := markEmailVerified db user.id
        if trialAssignmentFails then
          (⟨true, "Email verified successfully", none⟩, db1,
            [⟨"error", "assign_trial"⟩, ⟨"info", "verify_email"⟩])
        else
          (⟨true, "Email verified successfully", none⟩,
            assignTrialPlan db1 now user.id newSubId,
            [⟨"info", "assign_trial"⟩, ⟨"info", "verify_email"⟩])

/-- `AuthService.resendVerificationEmail` (lines 261-305): the rate-limit
check-and-increment runs first (unless `skipRateLimit`), before the user
lookup; the generic success message never reveals whether the email is
registered; the outbound verification email events are returned. -/
def resendVerificationEmail (hashToken : String → String) (db : Db)
    (now : Int) (email : String) (skipRateLimit : Bool) (newAttemptId : Nat)
    (verificationToken : String) : ActionResult × Db × List EmailEvent :=
  let rl := if skipRateLimit then (⟨true, none⟩, db)
            else checkRateLimit db now email newAttemptId
  if rl.1.allowed = false then
    (⟨false,
        "Too many verification email requests. Please try again in an hour.",
        rl.1.errorCode⟩, rl.2, [])
  else
    match findUserByEmail rl.2 (lowercase email) with
    | none =>
        (⟨true,
            "If your email is registered, you will receive a verification link",
            none⟩, rl.2, [])
    | some user =>
        if user.email_verified then
          (⟨false, "Email is already verified",
              some .EMAIL_ALREADY_VERIFIED⟩, rl.2, [])
        else
          (⟨true,
              "If your email is registered, you will receive a verification link",
              none⟩,
            setVerificationToken rl.2 user.id (hashToken verificationToken)
              (now + 24 * hourMs),
            [⟨"verification", email⟩])

/-- `AuthService.forgotPassword` (lines 503-526): no rate-limit check; for
a registered email it always stores a fresh reset digest (1 hour expiry)
and sends the reset email; it always reports generic success. -/
def forgotPassword (hashToken : String → String) (db : Db) (now : Int)
    (email : String) (resetToken : String) :
    ActionResult × Db × List EmailEvent :=
  match findUserByEmail db (lowercase email) with
  | none =>
      (⟨true,
          "If your email is registered, you will receive a password reset link",
          none⟩, db, [])
  | some user =>
      (⟨true,
          "If your email is registered, you will receive a password reset link",
          none⟩,
        setResetToken db user.id (hashToken resetToken) (now + hourMs),
        [⟨"reset", email⟩])

/-- `AuthService.login` (lines 307-394) with `bcrypt.compare` abstracted as
`pwOk`.  On an unverified account it consults the rate limiter and, when
allowed, re-sends the verification email through
`resendVerificationEmail(email, true)`; either way it fails with
`EMAIL_NOT_VERIFIED`, differing only in the message. -/
def login (signJwt : Nat → String → String)
    (pwOk : String → String → Bool) (hashToken : String → String)
    (db : Db) (now : Int) (email password : String) (newAttemptId : Nat)
    (verificationToken : String) (refreshExpMs : Int) (newTokenId : Nat)
    (newRefreshSecret : String) : TokenResult × Db × List EmailEvent :=
  match findUserByEmail db (lowercase email) with
  | none =>
      (⟨false, "Invalid email or password", some .INVALID_CREDENTIALS,
          none⟩, db, [])
  | some user =>
      if pwOk password user.password_hash = false then
        (⟨false, "Invalid email or password", some .INVALID_CREDENTIALS,
            none⟩, db, [])
      else if user.email_verified = false then
        let rl := checkRateLimit db now email newAttemptId
        if rl.1.allowed then
          let resent := resendVerificationEmail hashToken rl.2 now email
            true newAttemptId verificationToken
          (⟨false,
              "Your email is not verified. We have sent you a new verification link. Please check your email.",
              some .EMAIL_NOT_VERIFIED, none⟩, resent.2.1, resent.2.2)
        else
          (⟨false,
              "Your email is not verified. Too many verification emails sent. Please check your inbox or try again in an hour.",
              some .EMAIL_NOT_VERIFIED, none⟩, rl.2, [])
      else
        let issued := generateAuthTokens signJwt hashToken db now
          refreshExpMs newTokenId newRefreshSecret user.id user.email
        (⟨true, "Login successful", none, some issued.1⟩, issued.2, [])

/-- Trial assignment touches only the subscription table. -/
theorem assignTrialPlan_users (db : Db) (now : Int) (uid nid : Nat) :
    (assignTrialPlan db now uid nid).users = db.users := by
  unfold assignTrialPlan assignDefaultPlan
  repeat' split
  all_goals rfl

/-- Every user record with the verified id is fully updated by
`markEmailVerified`. -/
theorem mem_markEmailVerified {db : Db} {uid : Nat} {w : User}
    (hw : w ∈ (markEmailVerified db uid).users) (hid : w.id = uid) :
    w.email_verified = true ∧ w.email_verification_token = none ∧
      w.email_verification_expires = none := by
  simp only [markEmailVerified, List.mem_map] at hw
  obtain ⟨v, hv, rfl⟩ := hw
  by_cases h : v.id = uid
  · simp [h]
  · simp only [beq_iff_eq, if_neg h] at hid ⊢
    exact absurd hid h

/-- Claim C9: consuming a valid, unexpired, not-yet-verified verification
token marks the identity verified with the pending token fields cleared and
reports success; when the subsequent trial assignment fails, the result is
the same success, the store change is exactly the verification update (no
rollback, no trial write), and the failure shows up only as an error entry
handed to the logger. -/
theorem verify_email_trial_failure_no_rollback
    (hashToken : String → String) (db : Db) (now : Int) (token : String)
    (b : Bool) (newSubId : Nat) (u : User)
    (hfind : findUserByVerificationToken db (hashToken token) = some u)
    (hver : u.email_verified = false)
    (hexp : ∀ e, u.email_verification_expires = some e → ¬ e < now) :
    (verifyEmail hashToken db now token b newSubId).1 =
      ⟨true, "Email verified successfully", none⟩ ∧
    (∀ w ∈ (verifyEmail hashToken db now token b newSubId).2.1.users,
        w.id = u.id → w.email_verified = true ∧
          w.email_verification_token = none ∧
          w.email_verification_expires = none) ∧
    (b = true →
      (verifyEmail hashToken db now token b newSubId).2.1 =
        markEmailVerified db u.id ∧
      LogEntry.mk "error" "assign_trial" ∈
        (verifyEmail hashToken db now token b newSubId).2.2) := by
  have hguard : (match u.email_verification_expires with
      | some e => decide (e < now)
      | none => false) = false := by
    cases he : u.email_verification_expires with
    | none => rfl
    | some e => exact decide_eq_false (hexp e he)
  cases b with
  | true =>
      have hmain : verifyEmail hashToken db now token true newSubId =
          (⟨true, "Email verified successfully", none⟩,
            markEmailVerified db u.id,
            [⟨"error", "assign_trial"⟩, ⟨"info", "verify_email"⟩]) := by
        simp [verifyEmail, hfind, hver, hguard]
      refine ⟨by rw [hmain], ?_, ?_⟩
      · intro w hw hid
        rw [hmain] at hw
        exact mem_markEmailVerified hw hid
      · intro _
        rw [hmain]
        exact ⟨rfl, by simp⟩
  | false =>
      have hmain : verifyEmail hashToken db now token false newSubId =
          (⟨true, "Email verified successfully", none⟩,
            assignTrialPlan (markEmailVerified db u.id) now u.id newSubId,
            [⟨"info", "assign_trial"⟩, ⟨"info", "verify_email"⟩]) := by
        simp [verifyEmail, hfind, hver, hguard]
      refine ⟨by rw [hmain], ?_, ?_⟩
      · intro w hw hid
        rw [hmain] at hw
        rw [show (assignTrialPlan (markEmailVerified db u.id) now u.id
            newSubId).users = (markEmailVerified db u.id).users from
          assignTrialPlan_users _ _ _ _] at hw
        exact mem_markEmailVerified hw hid
      · intro hb
        exact Bool.noConfusion hb

/-- Witness for C9: a concrete store with one unverified user holding a
valid pending token; verification succeeds and, with the trial assignment
failing, only an error log entry records the failure. -/
theorem verify_email_trial_failure_no_rollback_witness :
    (verifyEmail (fun s => s)
        ⟨[⟨1, "e@x.io", "pw", false, some "th", some 99999, none, none⟩],
          [], [],
          [⟨2, "professional", 40, 5, 1, some 5000, some 100, true, true⟩],
          [], []⟩ 0 "th" true 9).1 =
      ⟨true, "Email verified successfully", none⟩ ∧
    LogEntry.mk "error" "assign_trial" ∈
      (verifyEmail (fun s => s)
        ⟨[⟨1, "e@x.io", "pw", false, some "th", some 99999, none, none⟩],
          [], [],
          [⟨2, "professional", 40, 5, 1, some 5000, some 100, true, true⟩],
          [], []⟩ 0 "th" true 9).2.2 := by
  have h := verify_email_trial_failure_no_rollback (fun s => s)
    ⟨[⟨1, "e@x.io", "pw", false, some "th", some 99999, none, none⟩],
      [], [],
      [⟨2, "professional", 40, 5, 1, some 5000, some 100, true, true⟩],
      [], []⟩ 0 "th" true 9
    ⟨1, "e@x.io", "pw", false, some "th", some 99999, none, none⟩
    (by decide) (by decide)
    (by intro e he; injection he with h2; subst h2; decide)
  exact ⟨h.1, (h.2.2 rfl).2⟩

/-- The rate-limit check touches only the attempts table. -/
theorem checkRateLimit_users (db : Db) (now : Int) (email : String)
    (nid : Nat) : (checkRateLimit db now email nid).2.users = db.users := by
  simp only [checkRateLimit, resetAttempt, bumpAttempt]
  repeat' split
  all_goals rfl

/-- A denied rate-limit check carries the `RATE_LIMIT_EXCEEDED` code. -/
theorem checkRateLimit_denied_code (db : Db) (now : Int) (email : String)
    (nid : Nat) (h : (checkRateLimit db now email nid).1.allowed = false) :
    (checkRateLimit db now email nid).1.errorCode =
      some AuthErrorCode.RATE_LIMIT_EXCEEDED := by
  rcases hfa : findAttempt db (lowercase email) with _ | a
  · simp [checkRateLimit, hfa] at h
  · by_cases h1 : a.first_attempt_at < now - hourMs
    · simp [checkRateLimit, hfa, h1] at h
    · by_cases h2 : 3 ≤ a.attempt_count
      · simp [checkRateLimit, hfa, h1, h2]
      · simp [checkRateLimit, hfa, h1, h2] at h

/-- Counterexample to claim C8: a store whose rate-limit record for the
email is at the cap inside an active window, so the limiter denies; yet
`forgotPassword` still issues the password-reset email — reset issuance is
not guarded by the rate limiter. -/
theorem forgotPassword_not_rate_limited_cex :
    ((checkRateLimit
        ⟨[⟨1, "u@x.io", "pw", true, none, none, none, none⟩], [],
          [⟨1, "u@x.io", 3, 0, 0⟩], [], [], []⟩ 10 "u@x.io" 5).1.allowed
      = false) ∧
    ((forgotPassword (fun s => s)
        ⟨[⟨1, "u@x.io", "pw", true, none, none, none, none⟩], [],
          [⟨1, "u@x.io", 3, 0, 0⟩], [], [], []⟩ 10 "u@x.io" "rt").2.2 =
      [⟨"reset", "u@x.io"⟩]) := by
  decide

/-- Claim C8 as amended: the limiter guards verification-email issuance on
the `resendVerificationEmail` path and on the unverified-login auto-resend
(issuance happens exactly when the limiter allows; when it denies, login
reports the rate-limit message without re-sending), and login fails with
`EMAIL_NOT_VERIFIED` either way, never with a rate-limit error code;
password-reset issuance (`forgotPassword`) is not rate-limited at all and
leaves the attempts table untouched. -/
theorem email_issuance_rate_limit_guards
    (signJwt : Nat → String → String) (pwOk : String → String → Bool)
    (hashToken : String → String) (db : Db) (now : Int)
    (email password vtok rtok rsecret : String) (nid ntid : Nat)
    (refreshExpMs : Int) (u : User)
    (hu : findUserByEmail db (lowercase email) = some u)
    (hpw : pwOk password u.password_hash = true)
    (hver : u.email_verified = false) :
    ((checkRateLimit db now email nid).1.allowed = true →
      (login signJwt pwOk hashToken db now email password nid vtok
          refreshExpMs ntid rsecret).1.errorCode =
        some AuthErrorCode.EMAIL_NOT_VERIFIED ∧
      (login signJwt pwOk hashToken db now email password nid vtok
          refreshExpMs ntid rsecret).2.2 = [⟨"verification", email⟩]) ∧
    ((checkRateLimit db now email nid).1.allowed = false →
      (login signJwt pwOk hashToken db now email password nid vtok
          refreshExpMs ntid rsecret).1.errorCode =
        some AuthErrorCode.EMAIL_NOT_VERIFIED ∧
      (login signJwt pwOk hashToken db now email password nid vtok
          refreshExpMs ntid rsecret).2.2 = []) ∧
    ((checkRateLimit db now email nid).1.allowed = false →
      (resendVerificationEmail hashToken db now email false nid
          vtok).1.errorCode = some AuthErrorCode.RATE_LIMIT_EXCEEDED ∧
      (resendVerificationEmail hashToken db now email false nid
          vtok).2.2 = []) ∧
    ((forgotPassword hashToken db now email rtok).2.2 =
        [⟨"reset", email⟩] ∧
      (forgotPassword hashToken db now email
          rtok).2.1.email_verification_attempts =
        db.email_verification_attempts) := by
  refine ⟨?_, ?_, ?_, ?_, ?_⟩
  · intro hall
    have hu2 : findUserByEmail (checkRateLimit db now email nid).2
        (lowercase email) = some u := by
      show (checkRateLimit db now email nid).2.users.find? _ = _
      rw [checkRateLimit_users]
      exact hu
    constructor <;>
      simp [login, resendVerificationEmail, hu, hpw, hver, hall, hu2]
  · intro hden
    constructor <;> simp [login, hu, hpw, hver, hden]
  · intro hden
    have hcode := checkRateLimit_denied_code db now email nid hden
    constructor <;> simp [resendVerificationEmail, hden, hcode]
  · simp [forgotPassword, hu]
  · simp [forgotPassword, hu, setResetToken]

/-- Witness for the amended C8: with the limiter at the cap, login on an
unverified account still reports `EMAIL_NOT_VERIFIED` without sending, the
resend path is denied with the rate-limit code, and the reset email still
goes out. -/
theorem email_issuance_rate_limit_guards_witness :
    ((login (fun _ _ => "jwt") (fun _ _ => true) (fun s => s)
        ⟨[⟨1, "u@x.io", "pw", false, none, none, none, none⟩], [],
          [⟨1, "u@x.io", 3, 0, 0⟩], [], [], []⟩ 10 "u@x.io" "pw" 5 "vt"
        1000 6 "rs").1.errorCode =
      some AuthErrorCode.EMAIL_NOT_VERIFIED) ∧
    ((resendVerificationEmail (fun s => s)
        ⟨[⟨1, "u@x.io", "pw", false, none, none, none, none⟩], [],
          [⟨1, "u@x.io", 3, 0, 0⟩], [], [], []⟩ 10 "u@x.io" false 5
        "vt").1.errorCode = some AuthErrorCode.RATE_LIMIT_EXCEEDED) ∧
    ((forgotPassword (fun s => s)
        ⟨[⟨1, "u@x.io", "pw", false, none, none, none, none⟩], [],
          [⟨1, "u@x.io", 3, 0, 0⟩], [], [], []⟩ 10 "u@x.io" "rt").2.2 =
      [⟨"reset", "u@x.io"⟩]) := by
  have h := email_issuance_rate_limit_guards (fun _ _ => "jwt")
    (fun _ _ => true) (fun s => s)
    ⟨[⟨1, "u@x.io", "pw", false, none, none, none, none⟩], [],
      [⟨1, "u@x.io", 3, 0, 0⟩], [], [], []⟩ 10 "u@x.io" "pw" "vt" "rt"
    "rs" 5 6 1000
    ⟨1, "u@x.io", "pw", false, none, none, none, none⟩
    (by decide) (by decide) (by decide)
  exact ⟨(h.2.1 (by decide)).1, (h.2.2.1 (by decide)).1, h.2.2.2.1⟩

/-- Claim C10: `resendVerificationEmail` performs the rate-limit
check-and-increment before the user lookup, so the attempts table after
any call equals the attempts table after `checkRateLimit` alone, whatever
the user state; in particular, for an unregistered email with a fresh
window, three requests at the same instant all consume a slot and report
generic success with no verification email sent, and the fourth is denied
with `RATE_LIMIT_EXCEEDED`, again with no email and no store change. -/
theorem resend_rate_limit_before_user_lookup
    (hashToken : String → String) (db : Db) (now : Int)
    (email vtok : String) (i1 i2 i3 i4 : Nat) :
    ((resendVerificationEmail hashToken db now email false i1
        vtok).2.1.email_verification_attempts =
      (checkRateLimit db now email i1).2.email_verification_attempts) ∧
    (findUserByEmail db (lowercase email) = none →
      db.email_verification_attempts = [] →
      (let r1 := resendVerificationEmail hashToken db now email false i1 vtok
       let r2 := resendVerificationEmail hashToken r1.2.1 now email false i2 vtok
       let r3 := resendVerificationEmail hashToken r2.2.1 now email false i3 vtok
       let r4 := resendVerificationEmail hashToken r3.2.1 now email false i4 vtok
       r1.1.success = true ∧ r2.1.success = true ∧ r3.1.success = true ∧
       r4.1.success = false ∧
       r4.1.errorCode = some AuthErrorCode.RATE_LIMIT_EXCEEDED ∧
       r1.2.2 = [] ∧ r2.2.2 = [] ∧ r3.2.2 = [] ∧ r4.2.2 = [] ∧
       r4.2.1 = r3.2.1)) := by
  constructor
  · by_cases hall : (checkRateLimit db now email i1).1.allowed = false
    · simp [resendVerificationEmail, hall]
    · have hall' : (checkRateLimit db now email i1).1.allowed = true := by
        revert hall
        cases (checkRateLimit db now email i1).1.allowed <;> simp
      rcases hfu : findUserByEmail (checkRateLimit db now email i1).2
          (lowercase email) with _ | v
      · simp [resendVerificationEmail, hall', hfu]
      · by_cases hv : v.email_verified = true
        · simp [resendVerificationEmail, hall', hfu, hv]
        · have hv' : v.email_verified = false := by
            revert hv
            cases v.email_verified <;> simp
          simp [resendVerificationEmail, hall', hfu, hv',
            setVerificationToken]
  · intro hnu hemp
    have hwin : ¬ (now < now - hourMs) := by
      simp only [hourMs]
      omega
    have hfa1 : findAttempt db (lowercase email) = none := by
      show db.email_verification_attempts.find? _ = none
      rw [hemp]
      rfl
    have hcr1 : checkRateLimit db now email i1 =
        (⟨true, none⟩, { db with email_verification_attempts :=
            db.email_verification_attempts ++
              [⟨i1, lowercase email, 1, now, now⟩] }) := by
      simp [checkRateLimit, hfa1]
    have hnu1 : findUserByEmail
        { db with email_verification_attempts :=
            db.email_verification_attempts ++
              [⟨i1, lowercase email, 1, now, now⟩] }
        (lowercase email) = none := hnu
    have hr1 : resendVerificationEmail hashToken db now email false i1 vtok
        = (⟨true,
            "If your email is registered, you will receive a verification link",
            none⟩,
          { db with email_verification_attempts :=
              db.email_verification_attempts ++
                [⟨i1, lowercase email, 1, now, now⟩] }, []) := by
      simp [resendVerificationEmail, hcr1, hnu1]
    have ha1 : ({ db with email_verification_attempts :=
        db.email_verification_attempts ++
          [⟨i1, lowercase email, 1, now, now⟩] } :
        Db).email_verification_attempts =
        [⟨i1, lowercase email, 1, now, now⟩] := by
      simp [hemp]
    have hfa2 : findAttempt
        { db with email_verification_attempts :=
            db.email_verification_attempts ++
              [⟨i1, lowercase email, 1, now, now⟩] }
        (lowercase email) = some ⟨i1, lowercase email, 1, now, now⟩ := by
      show List.find? _ _ = _
      rw [ha1]
      simp [List.find?_cons]
    have hcr2 : checkRateLimit
        { db with email_verification_attempts :=
            db.email_verification_attempts ++
              [⟨i1, lowercase email, 1, now, now⟩] } now email i2 =
        (⟨true, none⟩, bumpAttempt
          { db with email_verification_attempts :=
              db.email_verification_attempts ++
                [⟨i1, lowercase email, 1, now, now⟩] } i1 now) := by
      simp [checkRateLimit, hfa2, hwin]
    have hb2 : (bumpAttempt
        { db with email_verification_attempts :=
            db.email_verification_attempts ++
              [⟨i1, lowercase email, 1, now, now⟩] }
        i1 now).email_verification_attempts =
        [⟨i1, lowercase email, 2, now, now⟩] := by
      simp [bumpAttempt, ha1, hemp]
    have hnu2 : findUserByEmail (bumpAttempt
        { db with email_verification_attempts :=
            db.email_verification_attempts ++
              [⟨i1, lowercase email, 1, now, now⟩] } i1 now)
        (lowercase email) = none := hnu
    have hr2 : resendVerificationEmail hashToken
        { db with email_verification_attempts :=
            db.email_verification_attempts ++
              [⟨i1, lowercase email, 1, now, now⟩] } now email false i2 vtok
        = (⟨true,
            "If your email is registered, you will receive a verification link",
            none⟩,
          bumpAttempt
            { db with email_verification_attempts :=
                db.email_verification_attempts ++
                  [⟨i1, lowercase email, 1, now, now⟩] } i1 now, []) := by
      simp [resendVerificationEmail, hcr2, hnu2]
    have hfa3 : findAttempt (bumpAttempt
        { db with email_verification_attempts :=
            db.email_verification_attempts ++
              [⟨i1, lowercase email, 1, now, now⟩] } i1 now)
        (lowercase email) = some ⟨i1, lowercase email, 2, now, now⟩ := by
      show List.find? _ _ = _
      rw [hb2]
      simp [List.find?_cons]
    have hcr3 : checkRateLimit (bumpAttempt
        { db with email_verification_attempts :=
            db.email_verification_attempts ++
              [⟨i1, lowercase email, 1, now, now⟩] } i1 now) now email i3 =
        (⟨true, none⟩, bumpAttempt (bumpAttempt
          { db with email_verification_attempts :=
              db.email_verification_attempts ++
                [⟨i1, lowercase email, 1, now, now⟩] } i1 now) i1 now) := by
      simp [checkRateLimit, hfa3, hwin]
    have hb3 : (bumpAttempt (bumpAttempt
        { db with email_verification_attempts :=
            db.email_verification_attempts ++
              [⟨i1, lowercase email, 1, now, now⟩] } i1 now)
        i1 now).email_verification_attempts =
        [⟨i1, lowercase email, 3, now, now⟩] := by
      simp [bumpAttempt, hb2, hemp]
    have hnu3 : findUserByEmail (bumpAttempt (bumpAttempt
        { db with email_verification_attempts :=
            db.email_verification_attempts ++
              [⟨i1, lowercase email, 1, now, now⟩] } i1 now) i1 now)
        (lowercase email) = none := hnu
    have hr3 : resendVerificationEmail hashToken (bumpAttempt
        { db with email_verification_attempts :=
            db.email_verification_attempts ++
              [⟨i1, lowercase email, 1, now, now⟩] } i1 now)
        now email false i3 vtok
        = (⟨true,
            "If your email is registered, you will receive a verification link",
            none⟩,
          bumpAttempt (bumpAttempt
            { db with email_verification_attempts :=
                db.email_verification_attempts ++
                  [⟨i1, lowercase email, 1, now, now⟩] } i1 now) i1 now,
          []) := by
      simp [resendVerificationEmail, hcr3, hnu3]
    have hfa4 : findAttempt (bumpAttempt (bumpAttempt
        { db with email_verification_attempts :=
            db.email_verification_attempts ++
              [⟨i1, lowercase email, 1, now, now⟩] } i1 now) i1 now)
        (lowercase email) = some ⟨i1, lowercase email, 3, now, now⟩ := by
      show List.find? _ _ = _
      rw [hb3]
      simp [List.find?_cons]
    have hcr4 : checkRateLimit (bumpAttempt (bumpAttempt
        { db with email_verification_attempts :=
            db.email_verification_attempts ++
              [⟨i1, lowercase email, 1, now, now⟩] } i1 now) i1 now)
        now email i4 =
        (⟨false, some .RATE_LIMIT_EXCEEDED⟩, bumpAttempt (bumpAttempt
          { db with email_verification_attempts :=
              db.email_verification_attempts ++
                [⟨i1, lowercase email, 1, now, now⟩] } i1 now) i1 now) := by
      simp [checkRateLimit, hfa4, hwin]
    have hr4 : resendVerificationEmail hashToken (bumpAttempt (bumpAttempt
        { db with email_verification_attempts :=
            db.email_verification_attempts ++
              [⟨i1, lowercase email, 1, now, now⟩] } i1 now) i1 now)
        now email false i4 vtok
        = (⟨false,
            "Too many verification email requests. Please try again in an hour.",
            some .RATE_LIMIT_EXCEEDED⟩,
          bumpAttempt (bumpAttempt
            { db with email_verification_attempts :=
                db.email_verification_attempts ++
                  [⟨i1, lowercase email, 1, now, now⟩] } i1 now) i1 now,
          []) := by
      simp [resendVerificationEmail, hcr4]
    simp [hr1, hr2, hr3, hr4]

/-- Witness for C10: four same-instant requests for a concrete unregistered
email; the fourth is denied with the rate-limit code. -/
theorem resend_rate_limit_before_user_lookup_witness :
    (resendVerificationEmail (fun s => s)
      (resendVerificationEmail (fun s => s)
        (resendVerificationEmail (fun s => s)
          (resendVerificationEmail (fun s => s)
            ⟨[], [], [], [], [], []⟩ 0 "x@y.z" false 1 "vt").2.1
          0 "x@y.z" false 2 "vt").2.1
        0 "x@y.z" false 3 "vt").2.1
      0 "x@y.z" false 4 "vt").1.errorCode =
    some AuthErrorCode.RATE_LIMIT_EXCEEDED := by
  have h := (resend_rate_limit_before_user_lookup (fun s => s)
    ⟨[], [], [], [], [], []⟩ 0 "x@y.z" "vt" 1 2 3 4).2 (by decide) rfl
  exact h.2.2.2.2.1

end SharedModules
